import Mathlib

set_option maxHeartbeats 1000000

/-!
Verification development for the NumberInfo Telegram bot (`src/main.py`).

The Python program is a Flask webhook dispatcher over a Supabase-backed
store.  We embed the store as explicit in-memory tables (association
lists mirroring the Supabase tables `points`, `referrals`, `sessions`,
`payments`, `users`/`is_admin`, `broadcasts`), external collaborators
(Telegram membership queries, the number-lookup API, send success) as an
environment record of oracles, and each handler as a pure function from
the database state to a new state plus a list of observable effects
(messages sent, API calls made, callback answers).  Message bodies are
abstracted to tags; the branching, ordering and state mutations follow
the source line by line.  The cosmetic progress-bar animation in
`handle_num` (sequential percentage edits) is collapsed into its final
"search complete" edit.
-/

/-- Outcome of the external number-lookup HTTP call in `handle_num`
(step 3 of the source): `err` is a transport failure (an exception from
`session.get` / `raise_for_status` / `r.json()`), `ok e` is a parsed
JSON payload where `e` is true exactly when the payload has a `"data"`
key holding an empty list (the source's "no data" case). -/
inductive LookupResult where
  | err : LookupResult
  | ok (emptyData : Bool) : LookupResult
deriving DecidableEq

/-- Tags for outbound chat messages; the exact (bilingual, emoji-laden)
texts of `src/main.py` are abstracted to one tag per distinct message. -/
inductive MsgTag where
  | joinPrompt
  | referralReferrerPaid
  | referralReferredPaid
  | welcome
  | helpText
  | homeCard
  | balanceCard
  | balanceRefreshed
  | referCard
  | myRefsCard
  | statsCard
  | depositOptions
  | upiDetails
  | usageNum
  | invalidNumber
  | topup
  | searching
  | searchDone
  | noData
  | lookupResult
  | apiFail
  | menuFallback
  | broadcastInstructions
  | broadcastStarted
  | broadcastContent
  | broadcastDone
  | promptAdminId
  | promoted
  | numericIdRequired
  | removedAdmin
  | askAddPointsUser
  | askAddPointsValue
  | invalidUserId
  | invalidNumberValue
  | missingTarget
  | addPointsDone
  | addPointsReceived
  | notAuthorized
  | adminsList
  | noAdmins
  | uploadScreenshot
  | amountMissing
  | screenshotThanks
  | ownerNotifyDeposit
  | promptNumber
  | approvedUserNote
  | approvedNote
  | rejectedUserNote
  | rejectedNote
deriving DecidableEq

/-- Tags for `answerCallbackQuery` replies. -/
inductive CbTag where
  | recheck
  | balanceUpdated
  | linkCopied
  | notAllowed
  | invalidId
  | notFound
  | alreadyProcessed
  | approved
  | rejected
  | invalidAmount
  | upiSent
deriving DecidableEq

/-- Observable effects of one inbound event: outbound Telegram calls and
the one external lookup-API call. -/
inductive Effect where
  | sendMsg (chat : Int) (tag : MsgTag)
  | sendPhoto (chat : Int) (tag : MsgTag)
  | editMsg (chat : Int) (tag : MsgTag)
  | apiLookup (number : String)
  | answerCb (cbId : String) (tag : CbTag)
deriving DecidableEq

/-- Row of the Supabase `points` table: `user_id`, `points`,
`referred_by` (set once at creation by `db_init_points_if_new`). -/
structure PointsRow where
  user_id : Int
  points : Int
  referred_by : Option Int := none
deriving DecidableEq

/-- Row of the `referrals` table. `status` is `"pending"` or
`"completed"` in the source. -/
structure Referral where
  id : Int
  referrer_id : Int
  referred_id : Int
  status : String
deriving DecidableEq

/-- Row of the `payments` table (manual-deposit flow). `link_id` (the
screenshot file id reused as storage) is irrelevant to control flow and
omitted. -/
structure Payment where
  id : Int
  user_id : Int
  chat_id : Int
  amount : Int
  points : Int
  order_id : String
  status : String
deriving DecidableEq

/-- Session payload: the source stores a JSON dict; the fields actually
read back are `amount` (manual-deposit flow) and `target_user`
(owner add-points flow). -/
structure Payload where
  amount : Option Int := none
  target_user : Option Int := none
deriving DecidableEq

/-- Row of the `sessions` table as returned by `db_get_session`. -/
structure SessionRow where
  action : Option String
  payload : Payload := {}
deriving DecidableEq

/-- Row of the `broadcasts` audit table (`db_log_broadcast`). -/
structure BroadcastLog where
  text : String
  total : Nat
  success : Nat
  failed : Nat
deriving DecidableEq

/-- The persistent store.  `users` holds the known user ids
(`db_all_user_ids`); `admins` holds the ids whose `is_admin` flag is
true.  `nextRefId` / `nextPayId` model the serial primary keys the
hosted store assigns on insert. -/
structure DB where
  users : List Int := []
  admins : List Int := []
  points : List PointsRow := []
  referrals : List Referral := []
  nextRefId : Int := 0
  sessions : List (Int × SessionRow) := []
  payments : List Payment := []
  nextPayId : Int := 0
  broadcasts : List BroadcastLog := []
deriving DecidableEq

/-- Static configuration read from the environment at startup. -/
structure Cfg where
  ownerId : Option Int := none
  channel1ChatId : String := ""
  channel2Chat : String := ""
  rupeesPerPoint : Int := 10
deriving DecidableEq

/-- External collaborators, fixed for the handling of one inbound event:
`memberStatus u chat` is the `getChatMember` status string (`none` means
the query failed or returned not-ok); `lookup` is the number-lookup API
outcome; `sendOk chat` tells whether a `sendMessage` to `chat` succeeds
(returns a message id). -/
structure Env where
  memberStatus : Int → String → Option String
  lookup : LookupResult
  sendOk : Int → Bool

/-- Source `db_is_admin(user_id)`: the owner is always admin; otherwise
the persisted `is_admin` flag on the `users` row. -/
def db_is_admin (cfg : Cfg) (u : Int) (db : DB) : Bool :=
  (cfg.ownerId == some u) || db.admins.contains u

/-- Source `role_for(user_id)`: `"owner" | "admin" | "user"`. -/
def role_for (cfg : Cfg) (u : Int) (db : DB) : String :=
  if cfg.ownerId == some u then "owner"
  else if db_is_admin cfg u db then "admin"
  else "user"

/-- Source `db_mark_admin(user_id, is_admin)`: `users` upsert that also
creates the row if missing. -/
def db_mark_admin (u : Int) (flag : Bool) (db : DB) : DB :=
  let db := if db.users.contains u then db else { db with users := db.users ++ [u] }
  if flag then
    if db.admins.contains u then db else { db with admins := db.admins ++ [u] }
  else { db with admins := db.admins.filter (fun x => !(x == u)) }

/-- Supabase upsert on `sessions`, keyed on `user_id`. -/
def upsertSession (u : Int) (row : SessionRow) : List (Int × SessionRow) → List (Int × SessionRow)
  | [] => [(u, row)]
  | p :: ps => if p.1 == u then (u, row) :: ps else p :: upsertSession u row ps

/-- Source `db_set_session(user_id, action, payload)` (single slot per
user: overwrite). -/
def db_set_session (u : Int) (action : String) (payload : Payload) (db : DB) : DB :=
  { db with sessions := upsertSession u { action := some action, payload := payload } db.sessions }

/-- Source `db_get_session(user_id)`. -/
def db_get_session (u : Int) (db : DB) : Option SessionRow :=
  (db.sessions.find? (fun p => p.1 == u)).map (fun p => p.2)

/-- Source `db_clear_session(user_id)` (delete by key). -/
def db_clear_session (u : Int) (db : DB) : DB :=
  { db with sessions := db.sessions.filter (fun p => !(p.1 == u)) }

/-- The points lookup inside `db_get_points`: first row of
`points` matching `user_id`, defaulting to `0` when absent. -/
def getPointsRows (u : Int) (rows : List PointsRow) : Int :=
  match rows.find? (fun r => r.user_id == u) with
  | some r => r.points
  | none => 0

/-- Source `db_get_points(user_id)`. -/
def db_get_points (u : Int) (db : DB) : Int :=
  getPointsRows u db.points

/-- Supabase `upsert {user_id, points}` keyed on `user_id`: update the
`points` column of the existing row, else insert a fresh row. -/
def upsertPoints (u v : Int) : List PointsRow → List PointsRow
  | [] => [{ user_id := u, points := v }]
  | r :: rs =>
    if r.user_id == u then { r with points := v } :: rs
    else r :: upsertPoints u v rs

/-- Source `db_add_points(user_id, amount)`: read the current balance,
clamp `max(current + amount, 0)`, write back. -/
def db_add_points (u amount : Int) (db : DB) : DB :=
  { db with points := upsertPoints u (max (db_get_points u db + amount) 0) db.points }

/-- Source `db_init_points_if_new(user_id, referred_by)`: insert a row
with the 5-point starting bonus only if the user has no row yet. -/
def db_init_points_if_new (u : Int) (referredBy : Option Int) (db : DB) : DB :=
  if (db.points.find? (fun r => r.user_id == u)).isSome then db
  else { db with points := db.points ++ [{ user_id := u, points := 5, referred_by := referredBy }] }

/-- A sequence of `db_add_points` calls for one user, applied in order. -/
def applyDeltas (u : Int) (deltas : List Int) (db : DB) : DB :=
  deltas.foldl (fun acc d => db_add_points u d acc) db

/-- The per-call clamp of `db_add_points`, folded over a list of deltas:
this is the exact balance recurrence of the ledger. -/
def clampFold (b : Int) (deltas : List Int) : Int :=
  deltas.foldl (fun a d => max (a + d) 0) b

/-- All intermediate running sums `b + δ₁ + ⋯ + δᵢ` stay nonnegative. -/
def runningNonneg : Int → List Int → Prop
  | _, [] => True
  | b, d :: ds => 0 ≤ b + d ∧ runningNonneg (b + d) ds

instance runningNonneg.dec : ∀ (b : Int) (ds : List Int), Decidable (runningNonneg b ds)
  | _, [] => .isTrue trivial
  | b, d :: ds => by
    unfold runningNonneg
    exact @instDecidableAnd _ _ inferInstance (runningNonneg.dec (b + d) ds)

theorem runningNonneg_sum (b : Int) (ds : List Int) (hb : 0 ≤ b)
    (h : runningNonneg b ds) : 0 ≤ b + ds.sum := by
  induction ds generalizing b with
  | nil => simpa using hb
  | cons d ds ih =>
    obtain ⟨h1, h2⟩ := h
    have := ih (b + d) h1 h2
    simp only [List.sum_cons]
    omega

/-- Source `is_member(user_id, chat_identifier)`: `some true` if the
`getChatMember` status is creator/administrator/member, `some false`
for any other status, `none` on empty identifier, query failure or a
not-ok response. -/
def is_member (env : Env) (userId : Int) (chatIdentifier : String) : Option Bool :=
  if chatIdentifier = "" then none
  else
    match env.memberStatus userId chatIdentifier with
    | none => none
    | some status =>
      some (status == "creator" || status == "administrator" || status == "member")

/-- The select at the top of the referral-completion block: rows of
`referrals` with `referred_id = u` and `status = "pending"`. -/
def pendingFor (u : Int) (db : DB) : List Referral :=
  db.referrals.filter (fun r => r.referred_id == u && r.status == "pending")

/-- One iteration of the referral-completion loop: mark the row
completed (update keyed on `id`), credit referrer and referred user
with +2 each, notify both. -/
def completeById (refId : Int) (r : Referral) : Referral :=
  if r.id == refId then { r with status := "completed" } else r

def refStep (u : Int) (acc : DB × List Effect) (ref : Referral) : DB × List Effect :=
  let db := acc.1
  let db := { db with referrals := db.referrals.map (completeById ref.id) }
  let db := db_add_points ref.referrer_id 2 db
  let db := db_add_points u 2 db
  (db, acc.2 ++ [Effect.sendMsg ref.referrer_id MsgTag.referralReferrerPaid,
                 Effect.sendMsg u MsgTag.referralReferredPaid])

/-- The referral-completion block shared verbatim by
`check_membership_and_prompt` and step 5 of `handle_start`: snapshot
the pending rows for the referred user, then complete and pay each. -/
def completePendingReferrals (u : Int) (db : DB) : DB × List Effect :=
  (pendingFor u db).foldl (refStep u) (db, [])

/-- Source `check_membership_and_prompt(chat_id, user_id)`: an unset
channel counts as joined; `mem is not True` (so `None` = failed query)
counts as not joined; any un-joined channel sends the join prompt and
returns `False`; on success the pending referrals of the user are
completed. -/
def check_membership_and_prompt (env : Env) (cfg : Cfg) (chatId userId : Int) (db : DB) :
    Bool × DB × List Effect :=
  let mem1 := if cfg.channel1ChatId ≠ "" then is_member env userId cfg.channel1ChatId else some true
  let mem2 := if cfg.channel2Chat ≠ "" then is_member env userId cfg.channel2Chat else some true
  if mem1 ≠ some true ∨ mem2 ≠ some true then
    (false, db, [Effect.sendMsg chatId MsgTag.joinPrompt])
  else
    let c := completePendingReferrals userId db
    (true, c.1, c.2)

/-- Both configured channels report joined for `u` (the condition under
which `check_membership_and_prompt` takes its success branch). -/
def memOK (env : Env) (cfg : Cfg) (u : Int) : Prop :=
  (cfg.channel1ChatId = "" ∨ is_member env u cfg.channel1ChatId = some true) ∧
  (cfg.channel2Chat = "" ∨ is_member env u cfg.channel2Chat = some true)

instance (env : Env) (cfg : Cfg) (u : Int) : Decidable (memOK env cfg u) := by
  unfold memOK; exact instDecidableAnd

/-- The select in the owner approve/reject callbacks: `payments` row by
`id` (`limit 1` → first match). -/
def findPayment (pid : Int) (db : DB) : Option Payment :=
  db.payments.find? (fun p => p.id == pid)

/-- The `payments` update keyed on `id` used by the approve callback. -/
def approveById (pid : Int) (p : Payment) : Payment :=
  if p.id == pid then { p with status := "manual_approved" } else p

/-- The `payments` update keyed on `id` used by the reject callback. -/
def rejectById (pid : Int) (p : Payment) : Payment :=
  if p.id == pid then { p with status := "manual_rejected" } else p

/-- Core of the owner `approve_<id>` callback (after the owner role
check and id parse): fetch the row; ack "Not found" if missing; ack
"Already processed" if the row is not in `manual_submitted` state;
otherwise credit the stored points to the row's user, mark the row
`manual_approved`, notify the user and confirm to the owner. -/
def approvePayment (pid : Int) (cbId : String) (chatId : Int) (db : DB) : DB × List Effect :=
  match findPayment pid db with
  | none => (db, [Effect.answerCb cbId CbTag.notFound])
  | some row =>
    if row.status ≠ "manual_submitted" then
      (db, [Effect.answerCb cbId CbTag.alreadyProcessed])
    else
      let db := db_add_points row.user_id row.points db
      let db := { db with payments := db.payments.map (approveById pid) }
      (db, [Effect.sendMsg row.user_id MsgTag.approvedUserNote,
            Effect.answerCb cbId CbTag.approved,
            Effect.sendMsg chatId MsgTag.approvedNote])

/-- Core of the owner `reject_<id>` callback: same gating as approve,
but no credit — only the status flip to `manual_rejected`. -/
def rejectPayment (pid : Int) (cbId : String) (chatId : Int) (db : DB) : DB × List Effect :=
  match findPayment pid db with
  | none => (db, [Effect.answerCb cbId CbTag.notFound])
  | some row =>
    if row.status ≠ "manual_submitted" then
      (db, [Effect.answerCb cbId CbTag.alreadyProcessed])
    else
      let db := { db with payments := db.payments.map (rejectById pid) }
      (db, [Effect.sendMsg row.user_id MsgTag.rejectedUserNote,
            Effect.answerCb cbId CbTag.rejected,
            Effect.sendMsg chatId MsgTag.rejectedNote])

/-- The `await_manual_screenshot` branch of the webhook for a message
that does carry a photo: read the amount from the session payload
(defaulting to 0 on parse failure); abort if nonpositive; otherwise
insert a `manual_submitted` payment row whose points are
`amount // RUPEES_PER_POINT` (Python floor division, `Int.fdiv`),
clear the session, thank the user and notify the owner. -/
def submitManualScreenshot (cfg : Cfg) (chatId u : Int) (db : DB) : DB × List Effect :=
  let amount := match db_get_session u db with
    | some s => s.payload.amount.getD 0
    | none => 0
  if amount ≤ 0 then
    (db_clear_session u db, [Effect.sendMsg chatId MsgTag.amountMissing])
  else
    let points := Int.fdiv amount cfg.rupeesPerPoint
    let row : Payment :=
      { id := db.nextPayId, user_id := u, chat_id := chatId, amount := amount,
        points := points, order_id := "MAN-" ++ toString u, status := "manual_submitted" }
    let db := { db with payments := db.payments ++ [row], nextPayId := db.nextPayId + 1 }
    let db := db_clear_session u db
    (db, [Effect.sendMsg chatId MsgTag.screenshotThanks] ++
      (match cfg.ownerId with
       | some o => [Effect.sendMsg o MsgTag.ownerNotifyDeposit,
                    Effect.sendPhoto o MsgTag.ownerNotifyDeposit]
       | none => []))

/-- Python truthiness of the optional `user_id` argument
(`if user_id:` — both `None` and `0` are falsy). -/
def truthyId : Option Int → Bool
  | none => false
  | some v => v != 0

/-- The normalization in `handle_num`: keep only digit characters
(`"".join(ch for ch in text if ch.isdigit())`). -/
def digitsOf (s : String) : String :=
  String.mk (s.toList.filter Char.isDigit)

/-- Source `handle_num(chat_id, number, user_id)`.  Gate membership when
`user_id` is truthy; strip non-digits and require exactly 10 of them
(the source's `not number.isdigit() or len(number) != 10` on the
filtered string is equivalent to the length check); for a truthy user,
block on nonpositive balance with the top-up message; send the
"searching" status (the cosmetic percentage edits are collapsed into
the final "search complete" edit, dependent on whether the initial send
returned a message id); call the lookup API; on the "no data" payload
or on a transport error leave the store untouched; on a non-empty
payload show the result and deduct one point. -/
def handle_num (env : Env) (cfg : Cfg) (chatId : Int) (number0 : String)
    (userId : Option Int) (db : DB) : DB × List Effect :=
  let g := if truthyId userId
    then check_membership_and_prompt env cfg chatId (userId.getD 0) db
    else (true, db, [])
  if g.1 = false then (g.2.1, g.2.2)
  else
    let db := g.2.1
    let eff := g.2.2
    let number := digitsOf number0
    if number.length ≠ 10 then (db, eff ++ [Effect.sendMsg chatId MsgTag.invalidNumber])
    else if truthyId userId ∧ db_get_points (userId.getD 0) db ≤ 0 then
      (db, eff ++ [Effect.sendMsg chatId MsgTag.topup])
    else
      let eff := eff ++ [Effect.sendMsg chatId MsgTag.searching]
      let eff := eff ++ (if env.sendOk chatId
        then [Effect.editMsg chatId MsgTag.searchDone]
        else [Effect.sendMsg chatId MsgTag.searching])
      let eff := eff ++ [Effect.apiLookup number]
      match env.lookup with
      | .err =>
        (db, eff ++ [if env.sendOk chatId then Effect.editMsg chatId MsgTag.apiFail
                     else Effect.sendMsg chatId MsgTag.apiFail])
      | .ok true =>
        (db, eff ++ (if env.sendOk chatId then [Effect.editMsg chatId MsgTag.searchDone] else [])
             ++ [Effect.sendMsg chatId MsgTag.noData])
      | .ok false =>
        let db2 := if truthyId userId then db_add_points (userId.getD 0) (-1) db else db
        (db2, eff ++ (if env.sendOk chatId then [Effect.editMsg chatId MsgTag.searchDone] else [])
              ++ [Effect.sendMsg chatId MsgTag.lookupResult])

/-- `s` starts with `p` (Python `str.startswith`), stated on the
underlying character lists. -/
def strStartsWith (s p : String) : Bool :=
  p.data.isPrefixOf s.data

/-- Splitter behind Python `text.split()`: cut on spaces, dropping
empty pieces; `acc` carries the current word reversed. -/
def splitWordsChars : List Char → List Char → List String
  | [], acc => if acc.isEmpty then [] else [String.mk acc.reverse]
  | c :: cs, acc =>
    if c = ' ' then
      if acc.isEmpty then splitWordsChars cs []
      else String.mk acc.reverse :: splitWordsChars cs []
    else splitWordsChars cs (c :: acc)

/-- Python `text.split()` (whitespace split dropping empty pieces),
restricted to the space character. -/
def splitWords (t : String) : List String :=
  splitWordsChars t.data []

/-- Python `str.isdigit()` together with `int(...)` on the digits:
`some` exactly for a nonempty all-digit string. -/
def strToNat? (s : String) : Option Nat :=
  if s.data ≠ [] ∧ s.data.all Char.isDigit then
    some (s.data.foldl (fun acc c => acc * 10 + (c.toNat - 48)) 0)
  else none

/-- Python `int(...)` on a possibly sign-prefixed decimal string. -/
def strToInt? (s : String) : Option Int :=
  match s.data with
  | '-' :: rest => (strToNat? (String.mk rest)).map (fun n => -(n : Int))
  | _ => (strToNat? s).map (fun n => (n : Int))

/-- Python `str.lower()`, stated on the character list. -/
def lowerStr (s : String) : String :=
  String.mk (s.data.map Char.toLower)

/-- The referral parameter of `/start <ref>`: the second word when it
is all digits (`parts[1].isdigit()`), as an integer. -/
def parseStartReferral (text : String) : Option Int :=
  match splitWords text with
  | _ :: p :: _ => (strToNat? p).map (fun n => (n : Int))
  | _ => none

/-- Source `handle_start(chat_id, user_id)`; `text` is the message text
the source re-reads from the request body.  Gate membership; parse the
referral parameter; init the points account if new; insert a pending
referral row once per (referrer, referred) pair unless self-referral;
complete pending referrals; send the welcome. -/
def handle_start (env : Env) (cfg : Cfg) (chatId u : Int) (text : String) (db : DB) :
    DB × List Effect :=
  let g := check_membership_and_prompt env cfg chatId u db
  if g.1 = false then (g.2.1, g.2.2)
  else
    let db := g.2.1
    let eff := g.2.2
    let referred_by := parseStartReferral text
    let db := db_init_points_if_new u referred_by db
    let db :=
      match referred_by with
      | some r =>
        if r ≠ u then
          if (db.referrals.find? (fun x => x.referrer_id == r && x.referred_id == u)).isSome
          then db
          else { db with
                 referrals := db.referrals ++
                   [{ id := db.nextRefId, referrer_id := r, referred_id := u,
                      status := "pending" }],
                 nextRefId := db.nextRefId + 1 }
        else db
      | none => db
    let c := completePendingReferrals u db
    (c.1, eff ++ c.2 ++ [Effect.sendMsg chatId MsgTag.welcome])

/-- Source `handle_help(chat_id, user_id=None)`: gate only when a
truthy user id was passed. -/
def handle_help (env : Env) (cfg : Cfg) (chatId : Int) (userId : Option Int) (db : DB) :
    DB × List Effect :=
  if truthyId userId then
    let g := check_membership_and_prompt env cfg chatId (userId.getD 0) db
    if g.1 = false then (g.2.1, g.2.2)
    else (g.2.1, g.2.2 ++ [Effect.sendMsg chatId MsgTag.helpText])
  else (db, [Effect.sendMsg chatId MsgTag.helpText])

/-- Source `handle_balance`: reads the balance and referral count, no
gate, no mutation. -/
def handle_balance (chatId u : Int) (db : DB) : DB × List Effect :=
  (db, [Effect.sendMsg chatId MsgTag.balanceCard])

/-- Source `handle_home`: gate, then the home card. -/
def handle_home (env : Env) (cfg : Cfg) (chatId u : Int) (db : DB) : DB × List Effect :=
  let g := check_membership_and_prompt env cfg chatId u db
  if g.1 = false then (g.2.1, g.2.2)
  else (g.2.1, g.2.2 ++ [Effect.sendMsg chatId MsgTag.homeCard])

/-- Source `handle_refer`: the referral card, no mutation. -/
def handle_refer (chatId u : Int) (db : DB) : DB × List Effect :=
  (db, [Effect.sendMsg chatId MsgTag.referCard])

/-- Source `handle_deposit`: the amount-choice card, no mutation. -/
def handle_deposit (chatId u : Int) (db : DB) : DB × List Effect :=
  (db, [Effect.sendMsg chatId MsgTag.depositOptions])

/-- Source `handle_stats` (admin/owner only). -/
def handle_stats (cfg : Cfg) (chatId u : Int) (db : DB) : DB × List Effect :=
  if role_for cfg u db ≠ "owner" ∧ role_for cfg u db ≠ "admin" then
    (db, [Effect.sendMsg chatId MsgTag.notAuthorized])
  else (db, [Effect.sendMsg chatId MsgTag.statsCard])

/-- Source `handle_list_admins` (owner only). -/
def handle_list_admins (cfg : Cfg) (chatId u : Int) (db : DB) : DB × List Effect :=
  if role_for cfg u db ≠ "owner" then (db, [Effect.sendMsg chatId MsgTag.notAuthorized])
  else if db.admins.isEmpty then (db, [Effect.sendMsg chatId MsgTag.noAdmins])
  else (db, [Effect.sendMsg chatId MsgTag.adminsList])

/-- Source `handle_add_admin` (owner only): open the id-collect session. -/
def handle_add_admin (cfg : Cfg) (chatId u : Int) (db : DB) : DB × List Effect :=
  if role_for cfg u db ≠ "owner" then (db, [Effect.sendMsg chatId MsgTag.notAuthorized])
  else (db_set_session u "add_admin_wait_id" {} db,
        [Effect.sendMsg chatId MsgTag.promptAdminId])

/-- Source `handle_remove_admin` (owner only). -/
def handle_remove_admin (cfg : Cfg) (chatId u : Int) (db : DB) : DB × List Effect :=
  if role_for cfg u db ≠ "owner" then (db, [Effect.sendMsg chatId MsgTag.notAuthorized])
  else (db_set_session u "remove_admin_wait_id" {} db,
        [Effect.sendMsg chatId MsgTag.promptAdminId])

/-- Source `handle_broadcast` (admin/owner): open the broadcast
session. -/
def handle_broadcast (cfg : Cfg) (chatId u : Int) (db : DB) : DB × List Effect :=
  if role_for cfg u db ≠ "owner" ∧ role_for cfg u db ≠ "admin" then
    (db, [Effect.sendMsg chatId MsgTag.notAuthorized])
  else (db_set_session u "broadcast_wait_message" {} db,
        [Effect.sendMsg chatId MsgTag.broadcastInstructions])

/-- Source `handle_numberinfo`: gate, open the number-entry session,
send the prompt. -/
def handle_numberinfo (env : Env) (cfg : Cfg) (chatId u : Int) (db : DB) : DB × List Effect :=
  let g := check_membership_and_prompt env cfg chatId u db
  if g.1 = false then (g.2.1, g.2.2)
  else (db_set_session u "await_number" {} g.2.1,
        g.2.2 ++ [Effect.sendMsg chatId MsgTag.promptNumber])

/-- Source `handle_add_points_start` (owner only). -/
def handle_add_points_start (cfg : Cfg) (chatId u : Int) (db : DB) : DB × List Effect :=
  if role_for cfg u db ≠ "owner" then (db, [Effect.sendMsg chatId MsgTag.notAuthorized])
  else (db_set_session u "await_add_points_user" {} db,
        [Effect.sendMsg chatId MsgTag.askAddPointsUser])

/-- Source `handle_add_points_process`: the two-step owner add-points
flow.  A non-numeric input re-prompts and keeps the session; the
source's `if not target_user:` also treats a stored 0 as missing. -/
def handle_add_points_process (chatId ownerU : Int) (text : String) (db : DB) :
    DB × List Effect :=
  match db_get_session ownerU db with
  | none => (db, [])
  | some sess =>
    if sess.action == some "await_add_points_user" then
      match strToNat? text with
      | none => (db, [Effect.sendMsg chatId MsgTag.invalidUserId])
      | some n =>
        (db_set_session ownerU "await_add_points_value" { target_user := some (n : Int) } db,
         [Effect.sendMsg chatId MsgTag.askAddPointsValue])
    else if sess.action == some "await_add_points_value" then
      match strToNat? text with
      | none => (db, [Effect.sendMsg chatId MsgTag.invalidNumberValue])
      | some n =>
        if sess.payload.target_user.getD 0 == 0 then
          (db_clear_session ownerU db, [Effect.sendMsg chatId MsgTag.missingTarget])
        else
          let tgt := sess.payload.target_user.getD 0
          (db_clear_session ownerU (db_add_points tgt (n : Int) db),
           [Effect.sendMsg chatId MsgTag.addPointsDone,
            Effect.sendMsg tgt MsgTag.addPointsReceived])
    else (db, [])

/-- Source `run_broadcast(admin_user_id, chat_id, message_obj)`,
restricted to text messages (the media branches carry file ids the same
way).  Per-user send success comes from the environment; an empty text
is "no content" and every send fails; the tally row is appended to the
`broadcasts` audit table. -/
def run_broadcast (env : Env) (cfg : Cfg) (adminU chatId : Int) (text : String) (db : DB) :
    DB × List Effect :=
  if role_for cfg adminU db ≠ "owner" ∧ role_for cfg adminU db ≠ "admin" then
    (db, [Effect.sendMsg chatId MsgTag.notAuthorized])
  else
    let ids := db.users
    let total := ids.length
    let sends := if text ≠ ""
      then ids.map (fun uid => Effect.sendMsg uid MsgTag.broadcastContent)
      else []
    let success := if text ≠ "" then (ids.filter env.sendOk).length else 0
    let failed := total - success
    let db := { db with broadcasts := db.broadcasts ++
        [{ text := "text broadcast", total := total, success := success, failed := failed }] }
    (db, [Effect.sendMsg chatId MsgTag.broadcastStarted] ++ sends ++
         [Effect.sendMsg chatId MsgTag.broadcastDone])

/-- The button-label → command mapping dict of the webhook.  The source
dict literal binds "🏠 Home" twice ("/start" then "/home"); as in
Python, the later binding wins. -/
def buttonPairs : List (String × String) :=
  [("🏠 Home", "/home"), ("ℹ️ Help", "/help"), ("📊 Live Stats", "/stats"),
   ("📢 Broadcast", "/broadcast"), ("👑 List Admins", "/list_admins"),
   ("➕ Add Admin", "/add_admin"), ("💳 Deposit Points", "/deposit"),
   ("➖ Remove Admin", "/remove_admin"), ("📱 Number Info", "/numberinfo"),
   ("💰 My Balance", "/balance"), ("💎 Add Points to User", "/add_points"),
   ("🎁 Refer & Earn", "/refer")]

def buttonMap (t : String) : Option String :=
  (buttonPairs.find? (fun p => p.1 == t)).map (fun p => p.2)

/-- `text.split()[0].lower()` for the membership-gate command check. -/
def firstWordLower (t : String) : String :=
  match splitWords t with
  | w :: _ => lowerStr w
  | [] => ""

/-- Webhook command routing for a private text message (after the
button mapping and the session-interception block): membership-gate
slash commands other than `/start`/`/help`, then dispatch down the
`startswith` chain; unknown text is membership-gated and answered with
the menu fallback.  `text0` is the raw message text (re-read by
`handle_start`); `text` is the button-mapped text. -/
def routeText (env : Env) (cfg : Cfg) (chatId u : Int) (text0 text : String) (db : DB) :
    DB × List Effect :=
  let g :=
    if strStartsWith text "/" ∧ firstWordLower text ≠ "/start" ∧ firstWordLower text ≠ "/help"
    then check_membership_and_prompt env cfg chatId u db
    else (true, db, [])
  if g.1 = false then (g.2.1, g.2.2)
  else
    let db := g.2.1
    let eff := g.2.2
    let r :=
      if strStartsWith text "/start" then handle_start env cfg chatId u text0 db
      else if strStartsWith text "/balance" then handle_balance chatId u db
      else if strStartsWith text "/add_points" then handle_add_points_start cfg chatId u db
      else if strStartsWith text "/deposit" then handle_deposit chatId u db
      else if strStartsWith text "/refer" then handle_refer chatId u db
      else if strStartsWith text "/help" then handle_help env cfg chatId (some u) db
      else if strStartsWith text "/home" then handle_home env cfg chatId u db
      else if strStartsWith text "/stats" then handle_stats cfg chatId u db
      else if strStartsWith text "/list_admins" then handle_list_admins cfg chatId u db
      else if strStartsWith text "/add_admin" then handle_add_admin cfg chatId u db
      else if strStartsWith text "/remove_admin" then handle_remove_admin cfg chatId u db
      else if strStartsWith text "/broadcast" then handle_broadcast cfg chatId u db
      else if strStartsWith text "/numberinfo" then handle_numberinfo env cfg chatId u db
      else if strStartsWith text "/num" then
        match splitWords text with
        | _ :: arg :: _ => handle_num env cfg chatId arg (some u) db
        | _ => (db, [Effect.sendMsg chatId MsgTag.usageNum])
      else
        let g2 := check_membership_and_prompt env cfg chatId u db
        if g2.1 = false then (g2.2.1, g2.2.2)
        else (g2.2.1, g2.2.2 ++ [Effect.sendMsg chatId MsgTag.menuFallback])
    (r.1, eff ++ r.2)

/-- Whether the pending session is the manual-screenshot wait. -/
def awaitingScreenshot (o : Option SessionRow) : Bool :=
  match o with
  | some s => s.action == some "await_manual_screenshot"
  | none => false

/-- Text-message part of the webhook handler for a private chat (the
`users` upsert happens before this and is not modelled here).  Order
from the source: an active manual-screenshot session consumes any
non-photo message with a re-prompt; button labels map to commands; an
active session is intercepted (owner add-points flow, admin broadcast
and admin-management flows, the number-entry flow with its
command-escape); otherwise normal routing.  Note that `run_broadcast`
receives the raw message, so a command sent during an admin's
`broadcast_wait_message` session is broadcast, not routed. -/
def processText (env : Env) (cfg : Cfg) (chatId u : Int) (text0 : String) (db : DB) :
    DB × List Effect :=
  if awaitingScreenshot (db_get_session u db) then
    (db, [Effect.sendMsg chatId MsgTag.uploadScreenshot])
  else
    let text := (buttonMap text0).getD text0
    match db_get_session u db with
    | some sess =>
      if sess.action == some "await_add_points_user"
          || sess.action == some "await_add_points_value" then
        handle_add_points_process chatId u text db
      else if sess.action == some "broadcast_wait_message" && db_is_admin cfg u db then
        run_broadcast env cfg u chatId text0 (db_clear_session u db)
      else if sess.action == some "add_admin_wait_id" && db_is_admin cfg u db then
        let r :=
          match strToNat? text with
          | some n => (db_mark_admin (n : Int) true db,
                       [Effect.sendMsg chatId MsgTag.promoted])
          | none => (db, [Effect.sendMsg chatId MsgTag.numericIdRequired])
        (db_clear_session u r.1, r.2)
      else if sess.action == some "remove_admin_wait_id" && db_is_admin cfg u db then
        let r :=
          match strToNat? text with
          | some n => (db_mark_admin (n : Int) false db,
                       [Effect.sendMsg chatId MsgTag.removedAdmin])
          | none => (db, [Effect.sendMsg chatId MsgTag.numericIdRequired])
        (db_clear_session u r.1, r.2)
      else if sess.action == some "await_number" then
        if text == "🏠 Home" || text == "ℹ️ Help" || strStartsWith text "/" then
          let db := db_clear_session u db
          let cmd := if text == "🏠 Home" then "/start"
            else if text == "ℹ️ Help" then "/help" else text
          if cmd == "/start" then handle_start env cfg chatId u text0 db
          else if cmd == "/help" then handle_help env cfg chatId (some u) db
          else (db, [])
        else
          let num := digitsOf text
          if num.length ≠ 10 then (db, [Effect.sendMsg chatId MsgTag.invalidNumber])
          else handle_num env cfg chatId num (some u) (db_clear_session u db)
      else routeText env cfg chatId u text0 text db
    | none => routeText env cfg chatId u text0 text db

/-- Parse of `int(data.split("_", 1)[1])` for `<prefix>_<id>` callback
data (`String.toInt?` accepts an optional sign like Python `int`). -/
def parseIdAfter (n : Nat) (data : String) : Option Int :=
  strToInt? (String.mk (data.data.drop n))

/-- Callback-query part of the webhook handler (the `data` if/elif
chain).  Unmatched data falls off the end of the chain, so the source
returns with no reply and no callback answer. -/
def processCallback (env : Env) (cfg : Cfg) (userId chatId : Int) (cbId : String)
    (data : String) (db : DB) : DB × List Effect :=
  if data == "try_again" then
    let g := check_membership_and_prompt env cfg chatId userId db
    if g.1 = true then
      let h := handle_home env cfg chatId userId g.2.1
      (h.1, [Effect.answerCb cbId CbTag.recheck] ++ g.2.2 ++ h.2)
    else (g.2.1, [Effect.answerCb cbId CbTag.recheck] ++ g.2.2)
  else if data == "balance_refresh" then
    (db, [Effect.answerCb cbId CbTag.balanceUpdated,
          Effect.sendMsg chatId MsgTag.balanceRefreshed])
  else if data == "home_num" then handle_numberinfo env cfg chatId userId db
  else if data == "home_balance" then handle_balance chatId userId db
  else if data == "home_refer" then handle_refer chatId userId db
  else if data == "home_deposit" then handle_deposit chatId userId db
  else if data == "home_help" then handle_help env cfg chatId (some userId) db
  else if strStartsWith data "copy_link_" then (db, [Effect.answerCb cbId CbTag.linkCopied])
  else if strStartsWith data "approve_" then
    if role_for cfg userId db ≠ "owner" then (db, [Effect.answerCb cbId CbTag.notAllowed])
    else
      match parseIdAfter 8 data with
      | none => (db, [Effect.answerCb cbId CbTag.invalidId])
      | some pid => approvePayment pid cbId chatId db
  else if strStartsWith data "reject_" then
    if role_for cfg userId db ≠ "owner" then (db, [Effect.answerCb cbId CbTag.notAllowed])
    else
      match parseIdAfter 7 data with
      | none => (db, [Effect.answerCb cbId CbTag.invalidId])
      | some pid => rejectPayment pid cbId chatId db
  else if strStartsWith data "my_refs_" then (db, [Effect.sendMsg chatId MsgTag.myRefsCard])
  else if strStartsWith data "manual_" then
    match parseIdAfter 7 data with
    | none => (db, [Effect.answerCb cbId CbTag.invalidAmount])
    | some amount =>
      let db := db_set_session userId "await_manual_screenshot" { amount := some amount } db
      (db, (if env.sendOk chatId then [Effect.sendPhoto chatId MsgTag.upiDetails]
            else [Effect.sendPhoto chatId MsgTag.upiDetails,
                  Effect.sendMsg chatId MsgTag.upiDetails]) ++
           [Effect.answerCb cbId CbTag.upiSent])
  else (db, [])

/-- The set of callback `data` values recognized by the if/elif chain
of `processCallback`. -/
def callbackMatched (data : String) : Bool :=
  data == "try_again" || data == "balance_refresh" || data == "home_num" ||
  data == "home_balance" || data == "home_refer" || data == "home_deposit" ||
  data == "home_help" || strStartsWith data "copy_link_" || strStartsWith data "approve_" ||
  strStartsWith data "reject_" || strStartsWith data "my_refs_" || strStartsWith data "manual_"

/-- An environment where every membership query reports "member", the
lookup succeeds with a non-empty payload, and every send succeeds. -/
def envOkFound : Env :=
  { memberStatus := fun _ _ => some "member", lookup := .ok false, sendOk := fun _ => true }

theorem getPointsRows_upsert_self (u v : Int) (rows : List PointsRow) :
    getPointsRows u (upsertPoints u v rows) = v := by
  induction rows with
  | nil => simp [getPointsRows, upsertPoints, List.find?]
  | cons r rs ih =>
    by_cases h : r.user_id = u
    · simp [getPointsRows, upsertPoints, h, List.find?]
    · have hb : (r.user_id == u) = false := by simp [h]
      simp only [upsertPoints, hb, Bool.false_eq_true, if_false]
      simp only [getPointsRows, List.find?_cons, hb] at ih ⊢
      exact ih

theorem db_get_points_add_self (u a : Int) (db : DB) :
    db_get_points u (db_add_points u a db) = max (db_get_points u db + a) 0 := by
  simp [db_get_points, db_add_points, getPointsRows_upsert_self]

theorem db_get_points_applyDeltas (u : Int) (deltas : List Int) (db : DB) :
    db_get_points u (applyDeltas u deltas db) = clampFold (db_get_points u db) deltas := by
  induction deltas generalizing db with
  | nil => rfl
  | cons d ds ih =>
    simp only [applyDeltas, List.foldl_cons, clampFold] at *
    rw [ih, db_get_points_add_self]

theorem clampFold_nonneg (b : Int) (deltas : List Int) (hb : 0 ≤ b) :
    0 ≤ clampFold b deltas := by
  induction deltas generalizing b with
  | nil => exact hb
  | cons d ds ih => exact ih _ (le_max_right _ _)

theorem clampFold_eq_sum (b : Int) (deltas : List Int)
    (h : runningNonneg b deltas) : clampFold b deltas = b + deltas.sum := by
  induction deltas generalizing b with
  | nil => simp [clampFold]
  | cons d ds ih =>
    obtain ⟨h1, h2⟩ := h
    simp only [clampFold, List.foldl_cons, List.sum_cons]
    rw [max_eq_left h1]
    have := ih (b + d) h2
    simp only [clampFold] at this
    rw [this]; ring

theorem db_get_points_init_new (u : Int) (rb : Option Int) :
    db_get_points u (db_init_points_if_new u rb {}) = 5 := by
  simp [db_get_points, db_init_points_if_new, getPointsRows, List.find?]

/-- C1 counterexample.  Start a fresh user `1` with the 5-point bonus
and apply the deltas `[-10, 3]`.  The per-call clamp of `db_add_points`
yields balance `3`, while the claimed closed form
`max(0, bonus + Σδ) = max(0, 5 - 10 + 3) = 0` disagrees: the clamp is
applied at every call, not once at the end. -/
theorem points_sum_formula_counterexample :
    db_get_points 1 (applyDeltas 1 [-10, 3] (db_init_points_if_new 1 none {})) = 3 ∧
    ¬ db_get_points 1 (applyDeltas 1 [-10, 3] (db_init_points_if_new 1 none {})) =
        max 0 (5 + ([-10, 3] : List Int).sum) := by
  constructor <;> decide

/-- C1 (amended): for every user and every sequence of `add(user, δ)`
calls applied to the points ledger starting from the initial 5-point
bonus, the resulting balance is always `≥ 0`; it equals
`max(0, bonus + Σδ) = bonus + Σδ` provided every intermediate running
sum `bonus + δ₁ + ⋯ + δᵢ` is nonnegative (each `add` clamps at zero
individually, so the closed form holds exactly when no intermediate
clamp fires). -/
theorem points_ledger_invariant (u : Int) (deltas : List Int) :
    0 ≤ db_get_points u (applyDeltas u deltas (db_init_points_if_new u none {})) ∧
    (runningNonneg 5 deltas →
      db_get_points u (applyDeltas u deltas (db_init_points_if_new u none {})) =
        max 0 (5 + deltas.sum)) := by
  have hinit : db_get_points u (db_init_points_if_new u none {}) = 5 :=
    db_get_points_init_new u none
  have hfold := db_get_points_applyDeltas u deltas (db_init_points_if_new u none {})
  rw [hinit] at hfold
  constructor
  · rw [hfold]; exact clampFold_nonneg 5 deltas (by norm_num)
  · intro h
    rw [hfold, clampFold_eq_sum 5 deltas h]
    have := runningNonneg_sum 5 deltas (by norm_num) h
    omega

/-- C1 witness: the deltas `[-2, 3]` keep every running sum nonnegative,
so the amended formula applies and evaluates to `6`. -/
theorem points_ledger_invariant_witness :
    0 ≤ db_get_points 7 (applyDeltas 7 [-2, 3] (db_init_points_if_new 7 none {})) ∧
    db_get_points 7 (applyDeltas 7 [-2, 3] (db_init_points_if_new 7 none {})) =
      max 0 (5 + ([-2, 3] : List Int).sum) := by
  refine ⟨(points_ledger_invariant 7 [-2, 3]).1,
    (points_ledger_invariant 7 [-2, 3]).2 (by decide)⟩

theorem completePendingReferrals_of_no_pending (u : Int) (db : DB)
    (h : pendingFor u db = []) : completePendingReferrals u db = (db, []) := by
  unfold completePendingReferrals
  rw [h]
  rfl

theorem check_membership_pass (env : Env) (cfg : Cfg) (chatId u : Int) (db : DB)
    (h : memOK env cfg u) :
    check_membership_and_prompt env cfg chatId u db =
      (true, (completePendingReferrals u db).1, (completePendingReferrals u db).2) := by
  obtain ⟨h1, h2⟩ := h
  have e1 : (if cfg.channel1ChatId ≠ "" then is_member env u cfg.channel1ChatId
      else some true) = some true := by
    rcases h1 with h | h
    · simp [h]
    · by_cases hc : cfg.channel1ChatId = "" <;> simp [hc, h]
  have e2 : (if cfg.channel2Chat ≠ "" then is_member env u cfg.channel2Chat
      else some true) = some true := by
    rcases h2 with h | h
    · simp [h]
    · by_cases hc : cfg.channel2Chat = "" <;> simp [hc, h]
  simp [check_membership_and_prompt, e1, e2]

theorem check_membership_pass_clean (env : Env) (cfg : Cfg) (chatId u : Int) (db : DB)
    (h : memOK env cfg u) (hp : pendingFor u db = []) :
    check_membership_and_prompt env cfg chatId u db = (true, db, []) := by
  rw [check_membership_pass env cfg chatId u db h,
    completePendingReferrals_of_no_pending u db hp]

theorem check_membership_fail (env : Env) (cfg : Cfg) (chatId u : Int) (db : DB)
    (h : ¬ memOK env cfg u) :
    check_membership_and_prompt env cfg chatId u db =
      (false, db, [Effect.sendMsg chatId MsgTag.joinPrompt]) := by
  unfold check_membership_and_prompt
  rcases not_and_or.mp h with h | h
  · obtain ⟨hne, hmem⟩ := not_or.mp h
    have e1 : (if cfg.channel1ChatId ≠ "" then is_member env u cfg.channel1ChatId
        else some true) = is_member env u cfg.channel1ChatId := by simp [hne]
    rw [e1, if_pos (Or.inl hmem)]
  · obtain ⟨hne, hmem⟩ := not_or.mp h
    have e2 : (if cfg.channel2Chat ≠ "" then is_member env u cfg.channel2Chat
        else some true) = is_member env u cfg.channel2Chat := by simp [hne]
    rw [e2, if_pos (Or.inr hmem)]

theorem refStep_referrals (u : Int) (acc : DB × List Effect) (ref : Referral) :
    (refStep u acc ref).1.referrals = acc.1.referrals.map (completeById ref.id) := rfl

theorem foldl_refStep_no_pending (u : Int) (l : List Referral) :
    ∀ (db : DB) (eff : List Effect),
      (∀ r ∈ db.referrals, r.referred_id = u → r.status = "pending" →
        ∃ x ∈ l, x.id = r.id) →
      pendingFor u ((l.foldl (refStep u) (db, eff)).1) = [] := by
  induction l with
  | nil =>
    intro db eff h
    simp only [List.foldl_nil]
    refine List.filter_eq_nil_iff.mpr ?_
    intro r hr
    simp only [Bool.and_eq_true, beq_iff_eq, not_and]
    intro h1 h2
    obtain ⟨x, hx, _⟩ := h r hr h1 h2
    exact absurd hx (List.not_mem_nil x)
  | cons ref l ih =>
    intro db eff h
    rw [List.foldl_cons]
    refine ih (refStep u (db, eff) ref).1 (refStep u (db, eff) ref).2 ?_
    intro r' hr' h1 h2
    rw [refStep_referrals] at hr'
    obtain ⟨r, hr, hmap⟩ := List.mem_map.mp hr'
    unfold completeById at hmap
    by_cases hid : r.id = ref.id
    · rw [if_pos (beq_iff_eq.mpr hid)] at hmap
      have h2' : ("completed" : String) = "pending" := by rw [← hmap] at h2; exact h2
      exact absurd h2' (by decide)
    · rw [if_neg (by simpa using hid)] at hmap
      subst hmap
      obtain ⟨x, hx, hxid⟩ := h r hr h1 h2
      rcases List.mem_cons.mp hx with rfl | hx'
      · exact absurd hxid.symm hid
      · exact ⟨x, hx', hxid⟩

theorem pendingFor_after_complete (u : Int) (db : DB) :
    pendingFor u ((completePendingReferrals u db).1) = [] := by
  refine foldl_refStep_no_pending u (pendingFor u db) db [] ?_
  intro r hr h1 h2
  refine ⟨r, ?_, rfl⟩
  exact List.mem_filter.mpr ⟨hr, by simp [h1, h2]⟩

/-- C5: completing pending referrals is idempotent.  The first run
marks every pending row of the referred user completed; the second run
therefore finds no `status = "pending"` row for that user, performs no
state change and produces no credit or message at all. -/
theorem referral_completion_idempotent (u : Int) (db : DB) :
    completePendingReferrals u ((completePendingReferrals u db).1) =
      ((completePendingReferrals u db).1, []) :=
  completePendingReferrals_of_no_pending u _ (pendingFor_after_complete u db)

/-- C6: member-status mapping and the join gate.  (1) `is_member`
reports joined exactly for status creator/administrator/member on a
configured channel — a failed or not-ok query is never `some true`;
(2) with no channels configured the gate returns true; (3)/(4) if a
configured channel's membership is anything other than `some true`
(including a failed query), the gate sends the join prompt, returns
false and leaves the store unchanged — access is never granted on
query failure. -/
theorem membership_gate_spec (env : Env) (cfg : Cfg) (chatId u : Int) (db : DB)
    (chat : String) :
    (is_member env u chat = some true ↔
      chat ≠ "" ∧ (env.memberStatus u chat = some "creator" ∨
        env.memberStatus u chat = some "administrator" ∨
        env.memberStatus u chat = some "member")) ∧
    (cfg.channel1ChatId = "" → cfg.channel2Chat = "" →
      (check_membership_and_prompt env cfg chatId u db).1 = true) ∧
    (cfg.channel1ChatId ≠ "" → is_member env u cfg.channel1ChatId ≠ some true →
      check_membership_and_prompt env cfg chatId u db =
        (false, db, [Effect.sendMsg chatId MsgTag.joinPrompt])) ∧
    (cfg.channel2Chat ≠ "" → is_member env u cfg.channel2Chat ≠ some true →
      check_membership_and_prompt env cfg chatId u db =
        (false, db, [Effect.sendMsg chatId MsgTag.joinPrompt])) := by
  refine ⟨?_, ?_, ?_, ?_⟩
  · unfold is_member
    by_cases hc : chat = ""
    · simp [hc]
    · rcases hs : env.memberStatus u chat with _ | s
      · simp [hc, hs]
      · simp [hc, hs, or_assoc]
  · intro h1 h2
    have h : memOK env cfg u := ⟨Or.inl h1, Or.inl h2⟩
    rw [check_membership_pass env cfg chatId u db h]
  · intro h1 h2
    exact check_membership_fail env cfg chatId u db (by
      intro hmem
      rcases hmem.1 with h | h
      · exact h1 h
      · exact h2 h)
  · intro h1 h2
    exact check_membership_fail env cfg chatId u db (by
      intro hmem
      rcases hmem.2 with h | h
      · exact h1 h
      · exact h2 h)

/-- C6 witness: one configured channel whose membership query fails
(`none` status): the gate reports the join prompt and returns false. -/
theorem membership_gate_spec_witness :
    check_membership_and_prompt
        { memberStatus := fun _ _ => none, lookup := .ok false, sendOk := fun _ => true }
        { channel1ChatId := "c1" } 5 6 {} =
      (false, {}, [Effect.sendMsg 5 MsgTag.joinPrompt]) := by
  refine (membership_gate_spec
    { memberStatus := fun _ _ => none, lookup := .ok false, sendOk := fun _ => true }
    { channel1ChatId := "c1" } 5 6 {} "c1").2.2.1 (by decide) (by decide)

theorem db_add_points_payments (a b : Int) (db : DB) :
    (db_add_points a b db).payments = db.payments := rfl

theorem db_add_points_sessions (a b : Int) (db : DB) :
    (db_add_points a b db).sessions = db.sessions := rfl

theorem db_add_points_referrals (a b : Int) (db : DB) :
    (db_add_points a b db).referrals = db.referrals := rfl

theorem find?_map_approveById (pid : Int) (l : List Payment) :
    (l.map (approveById pid)).find? (fun p => p.id == pid) =
      (l.find? (fun p => p.id == pid)).map
        (fun p => { p with status := "manual_approved" }) := by
  induction l with
  | nil => rfl
  | cons p ps ih =>
    by_cases h : p.id = pid
    · have hb : (p.id == pid) = true := by simp [h]
      have hb2 : (({ p with status := "manual_approved" } : Payment).id == pid) = true := hb
      simp [approveById, List.find?_cons, hb, hb2]
    · have hb : (p.id == pid) = false := by simp [h]
      simp only [List.map_cons, approveById, hb, Bool.false_eq_true, if_false]
      simp only [List.find?_cons, hb]
      exact ih

theorem findPayment_append_fresh (pid : Int) (l : List Payment) (row : Payment)
    (hrow : (row.id == pid) = true) (h : ∀ p ∈ l, p.id ≠ pid) :
    (l ++ [row]).find? (fun p => p.id == pid) = some row := by
  induction l with
  | nil => simp [List.find?, hrow]
  | cons p ps ih =>
    have hb : (p.id == pid) = false := by simp [h p (List.mem_cons_self p ps)]
    simp only [List.cons_append, List.find?_cons, hb]
    exact ih (fun q hq => h q (List.mem_cons_of_mem p hq))

/-- C7: crediting the ledger for a deposit happens at most once per
payment row.  If the row found for `pid` has left the
`manual_submitted` state, an approve delivery only acks "Already
processed" and changes nothing; and after a successful approval, a
second delivery of the same approve event finds the row in
`manual_approved` state, credits nothing and leaves both the balance
and the row status unchanged. -/
theorem payment_credit_at_most_once (db : DB) (pid : Int) (cb cb2 : String)
    (chat chat2 : Int) (row : Payment) (hfind : findPayment pid db = some row) :
    (row.status ≠ "manual_submitted" →
      approvePayment pid cb chat db = (db, [Effect.answerCb cb CbTag.alreadyProcessed])) ∧
    (row.status = "manual_submitted" →
      approvePayment pid cb2 chat2 ((approvePayment pid cb chat db).1) =
        ((approvePayment pid cb chat db).1,
          [Effect.answerCb cb2 CbTag.alreadyProcessed])) := by
  constructor
  · intro h
    simp [approvePayment, hfind, h]
  · intro h
    have hfirst : (approvePayment pid cb chat db).1.payments =
        db.payments.map (approveById pid) := by
      simp [approvePayment, hfind, h, db_add_points_payments]
    have hfind2 : findPayment pid ((approvePayment pid cb chat db).1) =
        some { row with status := "manual_approved" } := by
      unfold findPayment
      rw [hfirst, find?_map_approveById]
      unfold findPayment at hfind
      rw [hfind]
      rfl
    generalize hX : (approvePayment pid cb chat db).1 = X at hfind2 ⊢
    simp [approvePayment, hfind2]

/-- C7 witness: a concrete submitted payment row approved twice — the
second delivery is rejected as already processed and is a no-op. -/
theorem payment_credit_at_most_once_witness :
    approvePayment 3 "cb2" 9
        ((approvePayment 3 "cb1" 9
          { payments := [{ id := 3, user_id := 4, chat_id := 9, amount := 50, points := 5,
                           order_id := "MAN-4", status := "manual_submitted" }] }).1) =
      ((approvePayment 3 "cb1" 9
          { payments := [{ id := 3, user_id := 4, chat_id := 9, amount := 50, points := 5,
                           order_id := "MAN-4", status := "manual_submitted" }] }).1,
        [Effect.answerCb "cb2" CbTag.alreadyProcessed]) :=
  (payment_credit_at_most_once
    { payments := [{ id := 3, user_id := 4, chat_id := 9, amount := 50, points := 5,
                     order_id := "MAN-4", status := "manual_submitted" }] }
    3 "cb1" "cb2" 9 9
    { id := 3, user_id := 4, chat_id := 9, amount := 50, points := 5,
      order_id := "MAN-4", status := "manual_submitted" }
    (by decide)).2 (by decide)

/-- C10: for a manual deposit of amount `A` rupees (the amount stored
by the `manual_<amt>` callback in the screenshot session), the payment
row inserted on screenshot upload records
`points = A // RUPEES_PER_POINT` (floor division), approving that row
credits exactly that many points, and any `A < RUPEES_PER_POINT`
yields 0 points. -/
theorem deposit_points_floor (cfg : Cfg) (chatId chat2 u : Int) (db : DB) (cb : String)
    (A : Int) (s : SessionRow)
    (hs : db_get_session u db = some s) (hA : s.payload.amount = some A)
    (hApos : 0 < A) (hrpp : 0 < cfg.rupeesPerPoint)
    (hfresh : ∀ p ∈ db.payments, p.id ≠ db.nextPayId)
    (hbal : 0 ≤ db_get_points u db) :
    ∃ row, findPayment db.nextPayId (submitManualScreenshot cfg chatId u db).1 = some row ∧
      row.amount = A ∧ row.points = Int.fdiv A cfg.rupeesPerPoint ∧
      row.status = "manual_submitted" ∧
      db_get_points u ((approvePayment db.nextPayId cb chat2
          (submitManualScreenshot cfg chatId u db).1).1) =
        db_get_points u db + Int.fdiv A cfg.rupeesPerPoint ∧
      (A < cfg.rupeesPerPoint → Int.fdiv A cfg.rupeesPerPoint = 0) := by
  have hamt : (match db_get_session u db with
      | some s => s.payload.amount.getD 0
      | none => 0) = A := by rw [hs]; simp [hA]
  have hA0 : ¬ A ≤ 0 := by omega
  have hsub : (submitManualScreenshot cfg chatId u db).1 =
      db_clear_session u
        { db with
          payments := db.payments ++
            [{ id := db.nextPayId, user_id := u, chat_id := chatId,
               amount := A, points := Int.fdiv A cfg.rupeesPerPoint,
               order_id := "MAN-" ++ toString u, status := "manual_submitted" }],
          nextPayId := db.nextPayId + 1 } := by
    simp only [submitManualScreenshot]
    rw [hamt, if_neg hA0]
  have hfind1 : findPayment db.nextPayId (submitManualScreenshot cfg chatId u db).1 =
      some { id := db.nextPayId, user_id := u, chat_id := chatId,
             amount := A, points := Int.fdiv A cfg.rupeesPerPoint,
             order_id := "MAN-" ++ toString u, status := "manual_submitted" } := by
    rw [hsub]
    exact findPayment_append_fresh db.nextPayId db.payments
      { id := db.nextPayId, user_id := u, chat_id := chatId,
        amount := A, points := Int.fdiv A cfg.rupeesPerPoint,
        order_id := "MAN-" ++ toString u, status := "manual_submitted" }
      (by simp) hfresh
  have hpts : 0 ≤ Int.fdiv A cfg.rupeesPerPoint := Int.fdiv_nonneg hApos.le hrpp.le
  have h1 : db_get_points u (submitManualScreenshot cfg chatId u db).1 =
      db_get_points u db := by rw [hsub]; rfl
  refine ⟨_, hfind1, rfl, rfl, rfl, ?_, ?_⟩
  · have h2 : db_get_points u ((approvePayment db.nextPayId cb chat2
        (submitManualScreenshot cfg chatId u db).1).1) =
        db_get_points u (db_add_points u (Int.fdiv A cfg.rupeesPerPoint)
          (submitManualScreenshot cfg chatId u db).1) := by
      simp [approvePayment, hfind1, db_get_points]
    rw [h2, db_get_points_add_self, h1]
    rw [max_eq_left (by omega)]
  · intro hlt
    rw [Int.fdiv_eq_ediv]
    · exact Int.ediv_eq_zero_of_lt hApos.le hlt
    · omega

/-- C10 witness: ₹50 at the default rate of ₹10 per point records and
credits exactly 5 points (and, e.g., any ₹1–₹9 deposit would record 0;
the implication side is exercised by the theorem's last clause). -/
theorem deposit_points_floor_witness :
    ∃ row, findPayment 0 ((submitManualScreenshot { ownerId := some 99 } 9 4
        { points := [{ user_id := 4, points := 2 }],
          sessions := [(4, { action := some "await_manual_screenshot",
                             payload := { amount := some 50 } })] }).1) = some row ∧
      row.amount = 50 ∧ row.points = Int.fdiv 50 10 ∧
      row.status = "manual_submitted" ∧
      db_get_points 4 ((approvePayment 0 "cb" 7
          ((submitManualScreenshot { ownerId := some 99 } 9 4
            { points := [{ user_id := 4, points := 2 }],
              sessions := [(4, { action := some "await_manual_screenshot",
                                 payload := { amount := some 50 } })] }).1)).1) =
        db_get_points 4
          { points := [{ user_id := 4, points := 2 }],
            sessions := [(4, { action := some "await_manual_screenshot",
                               payload := { amount := some 50 } })] } + Int.fdiv 50 10 ∧
      ((50 : Int) < 10 → Int.fdiv 50 10 = 0) :=
  deposit_points_floor { ownerId := some 99 } 9 7 4
    { points := [{ user_id := 4, points := 2 }],
      sessions := [(4, { action := some "await_manual_screenshot",
                         payload := { amount := some 50 } })] }
    "cb" 50
    { action := some "await_manual_screenshot", payload := { amount := some 50 } }
    (by decide) (by decide) (by decide) (by decide) (by decide) (by decide)

theorem truthyId_some (u : Int) (hu : u ≠ 0) : truthyId (some u) = true := by
  simp [truthyId, hu]

/-- C2: lookup metering.  For a member with no pending referral, a
positive balance and a valid 10-digit argument, `handle_num` changes
the balance by exactly −1 when the lookup returns a non-empty payload,
and leaves it unchanged on the "no data" payload and on a transport
error. -/
theorem lookup_metering (env : Env) (cfg : Cfg) (chatId u : Int) (number : String) (db : DB)
    (hu : u ≠ 0) (hmem : memOK env cfg u) (hpend : pendingFor u db = [])
    (hlen : (digitsOf number).length = 10) (hpos : 0 < db_get_points u db) :
    db_get_points u ((handle_num env cfg chatId number (some u) db).1) =
      (match env.lookup with
       | .ok false => db_get_points u db - 1
       | _ => db_get_points u db) := by
  have hT := truthyId_some u hu
  have hg := check_membership_pass_clean env cfg chatId u db hmem hpend
  have hn : ¬ db_get_points u db ≤ 0 := by omega
  have hmax : max (db_get_points u db + -1) 0 = db_get_points u db + -1 :=
    max_eq_left (by omega)
  rcases hl : env.lookup with _ | e
  · simp [handle_num, hT, hg, hlen, hn, hl]
  · rcases e with _ | _
    · simp [handle_num, hT, hg, hlen, hn, hl, db_get_points_add_self, hmax]
      omega
    · simp [handle_num, hT, hg, hlen, hn, hl]

/-- C2 witness: a member with 5 points and a successful non-empty
lookup of `9235895648` ends with 4 points. -/
theorem lookup_metering_witness :
    db_get_points 1 ((handle_num envOkFound {} 9 "9235895648" (some 1)
        { points := [{ user_id := 1, points := 5 }] }).1) =
      db_get_points 1 { points := [{ user_id := 1, points := 5 }] } - 1 := by
  have h := lookup_metering envOkFound {} 9 1 "9235895648"
    { points := [{ user_id := 1, points := 5 }] }
    (by decide) (by decide) (by decide) (by decide) (by decide)
  simpa [envOkFound] using h

/-- C3 counterexample.  A user whose stored balance is 0 but who has a
pending referral: the membership gate completes the referral first
(+2 points), the balance check then sees 2 > 0, the lookup API is
called and the balance ends at 1 — so with a pending referral the
zero-balance precondition does not keep the handler away from the API,
and the balance does change. -/
theorem zero_balance_gate_counterexample :
    db_get_points 2
      { points := [{ user_id := 2, points := 0 }],
        referrals := [{ id := 0, referrer_id := 3, referred_id := 2,
                        status := "pending" }] } = 0 ∧
    Effect.apiLookup "9235895648" ∈
      (handle_num envOkFound {} 9 "9235895648" (some 2)
        { points := [{ user_id := 2, points := 0 }],
          referrals := [{ id := 0, referrer_id := 3, referred_id := 2,
                          status := "pending" }] }).2 ∧
    db_get_points 2 ((handle_num envOkFound {} 9 "9235895648" (some 2)
        { points := [{ user_id := 2, points := 0 }],
          referrals := [{ id := 0, referrer_id := 3, referred_id := 2,
                          status := "pending" }] }).1) = 1 := by
  refine ⟨by decide, by decide, by decide⟩

/-- C3 (amended): for a user with no pending referral row, invoking the
lookup flow with a valid 10-digit number and balance 0 never calls the
lookup API and leaves the store (hence the balance) unchanged; when the
membership gate passes, the handler stops with the top-up message. -/
theorem zero_balance_gate (env : Env) (cfg : Cfg) (chatId u : Int) (number : String)
    (db : DB) (hu : u ≠ 0) (hpend : pendingFor u db = [])
    (hzero : db_get_points u db = 0) (hlen : (digitsOf number).length = 10) :
    (handle_num env cfg chatId number (some u) db).1 = db ∧
    (∀ e ∈ (handle_num env cfg chatId number (some u) db).2,
      ∀ s, e ≠ Effect.apiLookup s) ∧
    (memOK env cfg u →
      Effect.sendMsg chatId MsgTag.topup ∈ (handle_num env cfg chatId number (some u) db).2) := by
  have hT := truthyId_some u hu
  by_cases hmem : memOK env cfg u
  · have hg := check_membership_pass_clean env cfg chatId u db hmem hpend
    have hle : db_get_points u db ≤ 0 := by omega
    have heq : handle_num env cfg chatId number (some u) db =
        (db, [Effect.sendMsg chatId MsgTag.topup]) := by
      simp [handle_num, hT, hg, hlen, hle]
    rw [heq]
    refine ⟨rfl, ?_, fun _ => by simp⟩
    intro e he s
    simp only [List.mem_singleton] at he
    subst he
    simp
  · have hg := check_membership_fail env cfg chatId u db hmem
    have heq : handle_num env cfg chatId number (some u) db =
        (db, [Effect.sendMsg chatId MsgTag.joinPrompt]) := by
      simp [handle_num, hT, hg]
    rw [heq]
    refine ⟨rfl, ?_, fun h => absurd h hmem⟩
    intro e he s
    simp only [List.mem_singleton] at he
    subst he
    simp

/-- C3 witness: a member with balance 0 and no pending referral gets
the top-up message, the store is unchanged and no API call happens. -/
theorem zero_balance_gate_witness :
    (handle_num envOkFound {} 9 "9235895648" (some 2)
        { points := [{ user_id := 2, points := 0 }] }).1 =
      { points := [{ user_id := 2, points := 0 }] } ∧
    Effect.sendMsg 9 MsgTag.topup ∈
      (handle_num envOkFound {} 9 "9235895648" (some 2)
        { points := [{ user_id := 2, points := 0 }] }).2 := by
  have h := zero_balance_gate envOkFound {} 9 2 "9235895648"
    { points := [{ user_id := 2, points := 0 }] }
    (by decide) (by decide) (by decide) (by decide)
  exact ⟨h.1, h.2.2 (by decide)⟩

theorem processText_route (env : Env) (cfg : Cfg) (chatId u : Int) (text0 : String)
    (db : DB) (hsess : db_get_session u db = none) :
    processText env cfg chatId u text0 db =
      routeText env cfg chatId u text0 ((buttonMap text0).getD text0) db := by
  simp [processText, hsess, awaitingScreenshot]

theorem routeText_num (env : Env) (cfg : Cfg) (chatId u : Int) (db : DB)
    (text0 text arg : String)
    (hgate : check_membership_and_prompt env cfg chatId u db = (true, db, []))
    (hslash : strStartsWith text "/" = true)
    (hword : firstWordLower text = "/num")
    (hns : strStartsWith text "/start" = false)
    (hnb : strStartsWith text "/balance" = false)
    (hnap : strStartsWith text "/add_points" = false)
    (hnd : strStartsWith text "/deposit" = false)
    (hnr : strStartsWith text "/refer" = false)
    (hnh : strStartsWith text "/help" = false)
    (hnhm : strStartsWith text "/home" = false)
    (hnst : strStartsWith text "/stats" = false)
    (hnla : strStartsWith text "/list_admins" = false)
    (hnaa : strStartsWith text "/add_admin" = false)
    (hnra : strStartsWith text "/remove_admin" = false)
    (hnbc : strStartsWith text "/broadcast" = false)
    (hnni : strStartsWith text "/numberinfo" = false)
    (hnum : strStartsWith text "/num" = true)
    (hsplit : splitWords text = ["/num", arg]) :
    routeText env cfg chatId u text0 text db =
      handle_num env cfg chatId arg (some u) db := by
  have hc : strStartsWith text "/" ∧ firstWordLower text ≠ "/start" ∧
      firstWordLower text ≠ "/help" := by
    refine ⟨hslash, ?_, ?_⟩ <;> rw [hword] <;> decide
  simp [routeText, hc, hgate, hns, hnb, hnap, hnd, hnr, hnh, hnhm, hnst, hnla,
    hnaa, hnra, hnbc, hnni, hnum, hsplit]

theorem handle_num_invalid (env : Env) (cfg : Cfg) (chatId u : Int) (db : DB)
    (number0 : String) (hu : u ≠ 0)
    (hgate : check_membership_and_prompt env cfg chatId u db = (true, db, []))
    (hlen : (digitsOf number0).length ≠ 10) :
    handle_num env cfg chatId number0 (some u) db =
      (db, [Effect.sendMsg chatId MsgTag.invalidNumber]) := by
  have hT := truthyId_some u hu
  simp [handle_num, hT, hgate, hlen]

theorem handle_num_api_called (env : Env) (cfg : Cfg) (chatId u : Int) (db : DB)
    (number0 : String) (hu : u ≠ 0)
    (hgate : check_membership_and_prompt env cfg chatId u db = (true, db, []))
    (hlen : (digitsOf number0).length = 10) (hpos : 0 < db_get_points u db) :
    Effect.apiLookup (digitsOf number0) ∈
      (handle_num env cfg chatId number0 (some u) db).2 := by
  have hT := truthyId_some u hu
  have hn : ¬ db_get_points u db ≤ 0 := by omega
  rcases hl : env.lookup with _ | e
  · cases hok : env.sendOk chatId <;> simp [handle_num, hT, hgate, hlen, hn, hl, hok]
  · cases e <;> cases hok : env.sendOk chatId <;>
      simp [handle_num, hT, hgate, hlen, hn, hl, hok]

/-- C8: `/num` argument validation.  For a member with no session, no
pending referral and a positive balance: `/num 123` (too short),
`/num abcdefghij` (no digits) and `/num 12345678901` (too long) are all
answered with the invalid-number reply and leave the store completely
unchanged (no deduction, no API call, no session change), while
`/num 9235895648` reaches the lookup API. -/
theorem num_command_validation (env : Env) (cfg : Cfg) (chatId u : Int) (db : DB)
    (hu : u ≠ 0) (hmem : memOK env cfg u) (hpend : pendingFor u db = [])
    (hsess : db_get_session u db = none) (hpos : 0 < db_get_points u db) :
    processText env cfg chatId u "/num 123" db =
      (db, [Effect.sendMsg chatId MsgTag.invalidNumber]) ∧
    processText env cfg chatId u "/num abcdefghij" db =
      (db, [Effect.sendMsg chatId MsgTag.invalidNumber]) ∧
    processText env cfg chatId u "/num 12345678901" db =
      (db, [Effect.sendMsg chatId MsgTag.invalidNumber]) ∧
    Effect.apiLookup "9235895648" ∈
      (processText env cfg chatId u "/num 9235895648" db).2 := by
  have hg := check_membership_pass_clean env cfg chatId u db hmem hpend
  have e1 : processText env cfg chatId u "/num 123" db =
      routeText env cfg chatId u "/num 123" "/num 123" db :=
    (processText_route env cfg chatId u "/num 123" db hsess).trans (by rfl)
  have e2 : processText env cfg chatId u "/num abcdefghij" db =
      routeText env cfg chatId u "/num abcdefghij" "/num abcdefghij" db :=
    (processText_route env cfg chatId u "/num abcdefghij" db hsess).trans (by rfl)
  have e3 : processText env cfg chatId u "/num 12345678901" db =
      routeText env cfg chatId u "/num 12345678901" "/num 12345678901" db :=
    (processText_route env cfg chatId u "/num 12345678901" db hsess).trans (by rfl)
  have e4 : processText env cfg chatId u "/num 9235895648" db =
      routeText env cfg chatId u "/num 9235895648" "/num 9235895648" db :=
    (processText_route env cfg chatId u "/num 9235895648" db hsess).trans (by rfl)
  have r1 := routeText_num env cfg chatId u db "/num 123" "/num 123" "123" hg
    (by decide) (by decide) (by decide) (by decide) (by decide) (by decide)
    (by decide) (by decide) (by decide) (by decide) (by decide) (by decide)
    (by decide) (by decide) (by decide) (by decide) (by decide)
  have r2 := routeText_num env cfg chatId u db "/num abcdefghij" "/num abcdefghij"
    "abcdefghij" hg
    (by decide) (by decide) (by decide) (by decide) (by decide) (by decide)
    (by decide) (by decide) (by decide) (by decide) (by decide) (by decide)
    (by decide) (by decide) (by decide) (by decide) (by decide)
  have r3 := routeText_num env cfg chatId u db "/num 12345678901" "/num 12345678901"
    "12345678901" hg
    (by decide) (by decide) (by decide) (by decide) (by decide) (by decide)
    (by decide) (by decide) (by decide) (by decide) (by decide) (by decide)
    (by decide) (by decide) (by decide) (by decide) (by decide)
  have r4 := routeText_num env cfg chatId u db "/num 9235895648" "/num 9235895648"
    "9235895648" hg
    (by decide) (by decide) (by decide) (by decide) (by decide) (by decide)
    (by decide) (by decide) (by decide) (by decide) (by decide) (by decide)
    (by decide) (by decide) (by decide) (by decide) (by decide)
  refine ⟨?_, ?_, ?_, ?_⟩
  · exact (e1.trans r1).trans (handle_num_invalid env cfg chatId u db "123" hu hg (by decide))
  · exact (e2.trans r2).trans
      (handle_num_invalid env cfg chatId u db "abcdefghij" hu hg (by decide))
  · exact (e3.trans r3).trans
      (handle_num_invalid env cfg chatId u db "12345678901" hu hg (by decide))
  · rw [e4, r4]
    exact handle_num_api_called env cfg chatId u db "9235895648" hu hg (by decide) hpos

/-- C8 witness: with 3 points and all channels joined, `/num 123` is
rejected with the invalid-number reply and no state change, and
`/num 9235895648` reaches the API. -/
theorem num_command_validation_witness :
    processText envOkFound {} 9 5 "/num 123" { points := [{ user_id := 5, points := 3 }] } =
      ({ points := [{ user_id := 5, points := 3 }] },
        [Effect.sendMsg 9 MsgTag.invalidNumber]) ∧
    Effect.apiLookup "9235895648" ∈
      (processText envOkFound {} 9 5 "/num 9235895648"
        { points := [{ user_id := 5, points := 3 }] }).2 := by
  have h := num_command_validation envOkFound {} 9 5
    { points := [{ user_id := 5, points := 3 }] }
    (by decide) (by decide) (by decide) (by decide) (by decide)
  exact ⟨h.1, h.2.2.2⟩

/-- C4 counterexample.  User 1 is an admin with an active
`broadcast_wait_message` session and sends `/start`: the webhook hands
the raw message to `run_broadcast` (broadcasting the text "/start" to
every known user and logging a broadcast row) instead of clearing the
session and running the start handler — no welcome message is sent.
Only the `await_number` session has the command-escape. -/
theorem session_escape_counterexample :
    (Effect.sendMsg 7 MsgTag.welcome ∉
      (processText envOkFound { ownerId := some 99 } 7 1 "/start"
        { users := [1, 2], admins := [1],
          sessions := [(1, { action := some "broadcast_wait_message" })] }).2) ∧
    (processText envOkFound { ownerId := some 99 } 7 1 "/start"
        { users := [1, 2], admins := [1],
          sessions := [(1, { action := some "broadcast_wait_message" })] }).1.broadcasts =
      [{ text := "text broadcast", total := 2, success := 2, failed := 0 }] := by
  constructor <;> decide

/-- C4 (amended): while a `broadcast_wait_message` session is active
for an admin U, any text U sends — including `/start` — is consumed as
the broadcast content: the session is cleared and `run_broadcast` runs
on the raw text; the command-escape exists only for the `await_number`
session, where sending `/start` clears the session and runs the start
handler. -/
theorem session_escape_amended (env : Env) (cfg : Cfg) (chatId u : Int) (text0 : String)
    (db : DB) (pl : Payload) :
    (db_get_session u db = some { action := some "broadcast_wait_message", payload := pl } →
      db_is_admin cfg u db = true →
      processText env cfg chatId u text0 db =
        run_broadcast env cfg u chatId text0 (db_clear_session u db)) ∧
    (db_get_session u db = some { action := some "await_number", payload := pl } →
      processText env cfg chatId u "/start" db =
        handle_start env cfg chatId u "/start" (db_clear_session u db)) := by
  constructor
  · intro hs hadmin
    have hscr : awaitingScreenshot
        (some { action := some "broadcast_wait_message", payload := pl }) = false := rfl
    simp [processText, hscr, hs, hadmin]
  · intro hs
    have hscr : awaitingScreenshot
        (some { action := some "await_number", payload := pl }) = false := rfl
    have hbm : (buttonMap "/start").getD "/start" = "/start" := by decide
    have f3 : strStartsWith "/start" "/" = true := by decide
    simp [processText, hscr, hs, hbm, f3]

/-- C4 witness: a concrete admin broadcast session consuming the next
message, and a concrete `await_number` session escaped by `/start`. -/
theorem session_escape_amended_witness :
    processText envOkFound { ownerId := some 99 } 7 1 "hello everyone"
        { users := [1, 2], admins := [1],
          sessions := [(1, { action := some "broadcast_wait_message" })] } =
      run_broadcast envOkFound { ownerId := some 99 } 1 7 "hello everyone"
        (db_clear_session 1
          { users := [1, 2], admins := [1],
            sessions := [(1, { action := some "broadcast_wait_message" })] }) ∧
    processText envOkFound { ownerId := some 99 } 7 1 "/start"
        { users := [1], sessions := [(1, { action := some "await_number" })] } =
      handle_start envOkFound { ownerId := some 99 } 7 1 "/start"
        (db_clear_session 1
          { users := [1], sessions := [(1, { action := some "await_number" })] }) := by
  constructor
  · exact (session_escape_amended envOkFound { ownerId := some 99 } 7 1 "hello everyone"
      { users := [1, 2], admins := [1],
        sessions := [(1, { action := some "broadcast_wait_message" })] } {}).1
      (by decide) (by decide)
  · exact (session_escape_amended envOkFound { ownerId := some 99 } 7 1 "x"
      { users := [1], sessions := [(1, { action := some "await_number" })] } {}).2
      (by decide)

theorem foldl_refStep_no_ack (u : Int) (l : List Referral) :
    ∀ (db : DB) (eff : List Effect),
      (∀ e ∈ eff, ∀ c t, e ≠ Effect.answerCb c t) →
      ∀ e ∈ (l.foldl (refStep u) (db, eff)).2, ∀ c t, e ≠ Effect.answerCb c t := by
  induction l with
  | nil => intro db eff h; simpa using h
  | cons ref l ih =>
    intro db eff h
    rw [List.foldl_cons]
    refine ih (refStep u (db, eff) ref).1 (refStep u (db, eff) ref).2 ?_
    intro e he c t
    have heff : (refStep u (db, eff) ref).2 = eff ++
        [Effect.sendMsg ref.referrer_id MsgTag.referralReferrerPaid,
         Effect.sendMsg u MsgTag.referralReferredPaid] := rfl
    rw [heff] at he
    rcases List.mem_append.mp he with h1 | h1
    · exact h e h1 c t
    · simp only [List.mem_cons, List.mem_singleton, List.not_mem_nil, or_false] at h1
      rcases h1 with rfl | rfl <;> simp

theorem completePendingReferrals_no_ack (u : Int) (db : DB) :
    ∀ e ∈ (completePendingReferrals u db).2, ∀ c t, e ≠ Effect.answerCb c t :=
  foldl_refStep_no_ack u (pendingFor u db) db [] (by simp)

theorem gate_no_ack (env : Env) (cfg : Cfg) (chatId u : Int) (db : DB) :
    ∀ e ∈ (check_membership_and_prompt env cfg chatId u db).2.2,
      ∀ c t, e ≠ Effect.answerCb c t := by
  by_cases hmem : memOK env cfg u
  · rw [check_membership_pass env cfg chatId u db hmem]
    exact completePendingReferrals_no_ack u db
  · rw [check_membership_fail env cfg chatId u db hmem]
    intro e he c t
    simp only [List.mem_singleton] at he
    subst he
    simp

theorem handle_numberinfo_no_ack (env : Env) (cfg : Cfg) (chatId u : Int) (db : DB) :
    ∀ e ∈ (handle_numberinfo env cfg chatId u db).2, ∀ c t, e ≠ Effect.answerCb c t := by
  have hga := gate_no_ack env cfg chatId u db
  unfold handle_numberinfo
  rcases hg : check_membership_and_prompt env cfg chatId u db with ⟨ok, db2, eff⟩
  rw [hg] at hga
  cases ok
  · intro e he c t
    have he' : e ∈ eff := by simpa using he
    exact hga e he' c t
  · intro e he c t
    have he' : e ∈ eff ++ [Effect.sendMsg chatId MsgTag.promptNumber] := by simpa using he
    rcases List.mem_append.mp he' with h1 | h1
    · exact hga e h1 c t
    · simp only [List.mem_singleton] at h1
      subst h1
      simp

theorem handle_help_no_ack (env : Env) (cfg : Cfg) (chatId : Int) (userId : Option Int)
    (db : DB) :
    ∀ e ∈ (handle_help env cfg chatId userId db).2, ∀ c t, e ≠ Effect.answerCb c t := by
  unfold handle_help
  cases ht : truthyId userId
  · intro e he c t
    simp only [ht, Bool.false_eq_true, if_false, List.mem_singleton] at he
    subst he
    simp
  · have hga := gate_no_ack env cfg chatId (userId.getD 0) db
    rcases hg : check_membership_and_prompt env cfg chatId (userId.getD 0) db with ⟨ok, db2, eff⟩
    rw [hg] at hga
    cases ok
    · intro e he c t
      have he' : e ∈ eff := by simpa [ht] using he
      exact hga e he' c t
    · intro e he c t
      have he' : e ∈ eff ++ [Effect.sendMsg chatId MsgTag.helpText] := by simpa [ht] using he
      rcases List.mem_append.mp he' with h1 | h1
      · exact hga e h1 c t
      · simp only [List.mem_singleton] at h1
        subst h1
        simp

theorem approvePayment_has_ack (pid : Int) (cb : String) (chat : Int) (db : DB) :
    ∃ t, Effect.answerCb cb t ∈ (approvePayment pid cb chat db).2 := by
  rcases hf : findPayment pid db with _ | row
  · exact ⟨CbTag.notFound, by simp [approvePayment, hf]⟩
  · by_cases h : row.status = "manual_submitted"
    · exact ⟨CbTag.approved, by simp [approvePayment, hf, h]⟩
    · exact ⟨CbTag.alreadyProcessed, by simp [approvePayment, hf, h]⟩

theorem rejectPayment_has_ack (pid : Int) (cb : String) (chat : Int) (db : DB) :
    ∃ t, Effect.answerCb cb t ∈ (rejectPayment pid cb chat db).2 := by
  rcases hf : findPayment pid db with _ | row
  · exact ⟨CbTag.notFound, by simp [rejectPayment, hf]⟩
  · by_cases h : row.status = "manual_submitted"
    · exact ⟨CbTag.rejected, by simp [rejectPayment, hf, h]⟩
    · exact ⟨CbTag.alreadyProcessed, by simp [rejectPayment, hf, h]⟩

/-- C9 counterexample.  A callback whose data matches none of the
recognized prefixes or exact values falls off the end of the if/elif
chain: the source returns with no reply and, in particular, no
`answerCallbackQuery` — the press is neither acked nor answered with a
neutral "OK". -/
theorem callback_ack_counterexample :
    processCallback envOkFound {} 1 7 "cb9" "zzz" {} = ({}, []) := by decide

/-- C9 (amended): callbacks matching `try_again`, `balance_refresh`,
`copy_link_*`, `approve_*`, `reject_*` and `manual_*` are always acked;
the `home_*` and `my_refs_*` callbacks are handled but never acked; and
data matching nothing produces no effect at all (no ack, no reply). -/
theorem callback_ack_amended (env : Env) (cfg : Cfg) (userId chatId : Int) (cbId : String)
    (data : String) (db : DB) :
    (callbackMatched data = false →
      processCallback env cfg userId chatId cbId data db = (db, [])) ∧
    (Effect.answerCb cbId CbTag.recheck ∈
      (processCallback env cfg userId chatId cbId "try_again" db).2) ∧
    (Effect.answerCb cbId CbTag.balanceUpdated ∈
      (processCallback env cfg userId chatId cbId "balance_refresh" db).2) ∧
    (Effect.answerCb cbId CbTag.linkCopied ∈
      (processCallback env cfg userId chatId cbId "copy_link_1" db).2) ∧
    (∃ t, Effect.answerCb cbId t ∈
      (processCallback env cfg userId chatId cbId "approve_5" db).2) ∧
    (∃ t, Effect.answerCb cbId t ∈
      (processCallback env cfg userId chatId cbId "reject_5" db).2) ∧
    (∃ t, Effect.answerCb cbId t ∈
      (processCallback env cfg userId chatId cbId "manual_10" db).2) ∧
    (∀ e ∈ (processCallback env cfg userId chatId cbId "home_num" db).2,
      ∀ c t, e ≠ Effect.answerCb c t) ∧
    (∀ e ∈ (processCallback env cfg userId chatId cbId "my_refs_1" db).2,
      ∀ c t, e ≠ Effect.answerCb c t) := by
  refine ⟨?_, ?_, ?_, ?_, ?_, ?_, ?_, ?_, ?_⟩
  · intro hcm
    simp only [callbackMatched, Bool.or_eq_false_iff] at hcm
    obtain ⟨⟨⟨⟨⟨⟨⟨⟨⟨⟨⟨h1, h2⟩, h3⟩, h4⟩, h5⟩, h6⟩, h7⟩, h8⟩, h9⟩, h10⟩, h11⟩, h12⟩ := hcm
    simp [processCallback, h1, h2, h3, h4, h5, h6, h7, h8, h9, h10, h11, h12]
  · rcases hg : check_membership_and_prompt env cfg chatId userId db with ⟨ok, db2, eff⟩
    cases ok <;> simp [processCallback, hg]
  · simp [processCallback]
  · have s1 : strStartsWith "copy_link_1" "copy_link_" = true := by decide
    simp [processCallback, s1]
  · have s2 : strStartsWith "approve_5" "copy_link_" = false := by decide
    have s3 : strStartsWith "approve_5" "approve_" = true := by decide
    by_cases hrole : role_for cfg userId db = "owner"
    · have hp : parseIdAfter 8 "approve_5" = some 5 := by decide
      have heq : processCallback env cfg userId chatId cbId "approve_5" db =
          approvePayment 5 cbId chatId db := by
        simp [processCallback, s2, s3, hrole, hp]
      rw [heq]
      exact approvePayment_has_ack 5 cbId chatId db
    · exact ⟨CbTag.notAllowed, by simp [processCallback, s2, s3, hrole]⟩
  · have s2 : strStartsWith "reject_5" "copy_link_" = false := by decide
    have s3 : strStartsWith "reject_5" "approve_" = false := by decide
    have s4 : strStartsWith "reject_5" "reject_" = true := by decide
    by_cases hrole : role_for cfg userId db = "owner"
    · have hp : parseIdAfter 7 "reject_5" = some 5 := by decide
      have heq : processCallback env cfg userId chatId cbId "reject_5" db =
          rejectPayment 5 cbId chatId db := by
        simp [processCallback, s2, s3, s4, hrole, hp]
      rw [heq]
      exact rejectPayment_has_ack 5 cbId chatId db
    · exact ⟨CbTag.notAllowed, by simp [processCallback, s2, s3, s4, hrole]⟩
  · have s2 : strStartsWith "manual_10" "copy_link_" = false := by decide
    have s3 : strStartsWith "manual_10" "approve_" = false := by decide
    have s4 : strStartsWith "manual_10" "reject_" = false := by decide
    have s5 : strStartsWith "manual_10" "my_refs_" = false := by decide
    have s6 : strStartsWith "manual_10" "manual_" = true := by decide
    have hp : parseIdAfter 7 "manual_10" = some 10 := by decide
    refine ⟨CbTag.upiSent, ?_⟩
    cases hok : env.sendOk chatId <;>
      simp [processCallback, s2, s3, s4, s5, s6, hp, hok]
  · have heq : processCallback env cfg userId chatId cbId "home_num" db =
        handle_numberinfo env cfg chatId userId db := by
      simp [processCallback]
    rw [heq]
    exact handle_numberinfo_no_ack env cfg chatId userId db
  · have s2 : strStartsWith "my_refs_1" "copy_link_" = false := by decide
    have s3 : strStartsWith "my_refs_1" "approve_" = false := by decide
    have s4 : strStartsWith "my_refs_1" "reject_" = false := by decide
    have s5 : strStartsWith "my_refs_1" "my_refs_" = true := by decide
    have heq : processCallback env cfg userId chatId cbId "my_refs_1" db =
        (db, [Effect.sendMsg chatId MsgTag.myRefsCard]) := by
      simp [processCallback, s2, s3, s4, s5]
    rw [heq]
    intro e he c t
    simp only [List.mem_singleton] at he
    subst he
    simp

/-- C9 witness: unmatched data `zzz` yields no effects at all. -/
theorem callback_ack_amended_witness :
    processCallback envOkFound { ownerId := some 99 } 3 7 "cbw" "zzz"
        { users := [3] } = ({ users := [3] }, []) :=
  (callback_ack_amended envOkFound { ownerId := some 99 } 3 7 "cbw" "zzz"
    { users := [3] }).1 (by decide)
